import Mathlib

/-!
omni_sqlite: `sqlite_exec`.

A shallow embedding of `extensions/omni_sqlite/omni_sqlite_exec.c`.

The C function is a call into the embedded engine followed by a status test:

```c
Datum sqlite_exec(PG_FUNCTION_ARGS) {
  sqlite_Sqlite *sqlite;
  text *query;
  char *msg = NULL;

  sqlite = SQLITE_GETARG(0);
  query = PG_GETARG_TEXT_PP(1);

  if (sqlite3_exec(sqlite->db, text_to_cstring(query), NULL, NULL, &msg) != SQLITE_OK) {
    ereport(ERROR, (errmsg("Failed to execute query: %s", msg)));
  }
  SQLITE_RETURN(sqlite);
}
```

The embedded engine is a parameter of the development (`Engine`): nothing is assumed about
what it answers.  Everything the function touches outside its own locals is threaded
explicitly through a `World`: the state of every engine session, the engine-owned buffers
that have been handed out and not yet released, and a log of the engine entry points that
were called.
-/

namespace OmniSqlite

/-! ## Values exchanged with the engine -/

/-- An engine-allocated, NUL-terminated character buffer (`char *`): the address of the
allocation and the text stored in it. A null `char *` is `none : Option CStr`. -/
structure CStr where
  addr : Nat
  str : String
deriving DecidableEq, Repr

/-- One result row, as the engine would hand it to a row callback (column texts). -/
abbrev Row := List String

/-- The row callback of the engine's execute entry point,
`int (*)(void *arg, int ncols, char **values, char **names)`. -/
abbrev Callback := Option Nat → Row → Row → Int

/-- The engine's success status. -/
def SQLITE_OK : Int := 0

/-- What one run of the engine's execute entry point answers. -/
structure ExecResponse (S : Type) where
  /-- the status code returned -/
  status : Int
  /-- the store the engine performs through the diagnostic out-parameter:
  `none` when it leaves the caller's slot untouched, `some v` when it stores `v` -/
  pzErrMsg : Option (Option CStr)
  /-- the result rows the command produced -/
  rows : List Row
  /-- the session's database state after the call -/
  db : S

/-- The embedded engine: an arbitrary answer for every session state, command text,
row callback and callback argument. -/
structure Engine (S : Type) where
  exec : S → String → Option Callback → Option Nat → ExecResponse S

/-- A logged call of an engine entry point. -/
inductive EngineCall where
  /-- `sqlite3_exec(db, sql, callback, arg, pzErrMsg)`; the last component is `none` for a
  null out-parameter and `some v` for the address of a slot that holds `v` at call time -/
  | exec (db : Nat) (sql : String) (callback : Option Callback) (arg : Option Nat)
      (pzErrMsg : Option (Option CStr))
  /-- `sqlite3_free(p)` -/
  | free (p : Option CStr)

/-- Everything outside the function's locals. -/
structure World (S : Type) where
  /-- database state of the session behind each `sqlite3 *` -/
  sessions : Nat → S
  /-- addresses of the engine-owned buffers handed out and not yet released -/
  outstanding : List Nat
  /-- engine entry points called so far, oldest first -/
  calls : List EngineCall

/-- What `sqlite3_exec` leaves behind for its caller. -/
structure ExecResult (S : Type) where
  rc : Int
  /-- contents of the caller's diagnostic slot after the call -/
  slot : Option CStr
  world : World S

/-- The engine's execute entry point, `sqlite3_exec(db, sql, callback, arg, pzErrMsg)`.
The session behind `db` moves to the state the engine answers, the call is logged, and,
when an out-parameter is supplied, the engine's store is performed on the caller's slot; a
buffer stored there belongs to the engine's allocator and becomes outstanding. -/
def sqlite3_exec {S : Type} (E : Engine S) (w : World S) (db : Nat) (sql : String)
    (callback : Option Callback) (arg : Option Nat) (pzErrMsg : Option (Option CStr)) :
    ExecResult S :=
  let r := E.exec (w.sessions db) sql callback arg
  let slot : Option CStr :=
    match pzErrMsg with
    | none => none
    | some v => r.pzErrMsg.getD v
  let handedOut : List Nat :=
    match pzErrMsg, r.pzErrMsg with
    | some _, some (some b) => [b.addr]
    | _, _ => []
  { rc := r.status
    slot := slot
    world :=
      { sessions := Function.update w.sessions db r.db
        outstanding := w.outstanding ++ handedOut
        calls := w.calls ++ [EngineCall.exec db sql callback arg pzErrMsg] } }

/-- The engine's deallocation entry point, `sqlite3_free(p)`; a null pointer is a no-op. -/
def sqlite3_free {S : Type} (w : World S) (p : Option CStr) : World S :=
  { w with
    outstanding :=
      match p with
      | none => w.outstanding
      | some b => w.outstanding.erase b.addr
    calls := w.calls ++ [EngineCall.free p] }

/-! ## The host side -/

/-- Severity levels of the host's error reporting. -/
inductive ElogLevel where
  | DEBUG | LOG | INFO | NOTICE | WARNING | ERROR | FATAL | PANIC
deriving DecidableEq, Repr

/-- Severities at which `ereport` does not return to its caller. -/
def ElogLevel.aborts : ElogLevel → Bool
  | .ERROR | .FATAL | .PANIC => true
  | _ => false

/-- The error a request is aborted with. -/
structure ErrorData where
  elevel : ElogLevel
  message : String
deriving DecidableEq, Repr

/-- Expansion of a printf-style format that takes one string argument: `%s` is replaced by
the argument (by `(null)` for a null pointer), `%%` by a percent sign, and every other
character is copied. -/
def expandFormat : List Char → Option String → List Char
  | [], _ => []
  | '%' :: 's' :: rest, arg => (arg.getD "(null)").data ++ expandFormat rest arg
  | '%' :: '%' :: rest, arg => '%' :: expandFormat rest arg
  | c :: rest, arg => c :: expandFormat rest arg

/-- The host's `errmsg(fmt, s)` for a format with one `%s` argument. -/
def errmsg (fmt : String) (s : Option CStr) : String :=
  String.mk (expandFormat fmt.data (s.map CStr.str))

/-- The host's `ereport(elevel, (errmsg(...)))`: at `ERROR` and above the request is aborted
with the message, below that the report is emitted and control returns. -/
def ereport (elevel : ElogLevel) (message : String) : Except ErrorData Unit :=
  if elevel.aborts then Except.error ⟨elevel, message⟩ else Except.ok ()

/-- The host's `text` value: its character payload. A `text` never holds a NUL, so the
payload is also the content of the C string made from it. -/
structure text where
  vl_dat : String
deriving DecidableEq, Repr

/-- The host's `text_to_cstring`: a fresh NUL-terminated copy of the payload. -/
def text_to_cstring (t : text) : String := t.vl_dat

/-- The connection handle `sqlite_Sqlite`. Only `db` is read by `sqlite_exec`; `R` stands
for the remaining fields, which are declared in `omni_sqlite.h`. -/
structure sqlite_Sqlite (R : Type) where
  db : Nat
  fields : R
deriving DecidableEq, Repr

/-- The call frame of `sqlite_exec(sqlite, text)`: its two arguments. -/
structure FunctionCallInfo (R : Type) where
  arg0 : sqlite_Sqlite R
  arg1 : text

/-- Modelled from the spec: the macro `SQLITE_GETARG` of `omni_sqlite.h`; `SQLITE_GETARG(0)`
is the connection handle passed as argument 0. -/
def SQLITE_GETARG {R : Type} (fcinfo : FunctionCallInfo R) : sqlite_Sqlite R := fcinfo.arg0

/-- The host's `PG_GETARG_TEXT_PP(1)`: the text passed as argument 1. -/
def PG_GETARG_TEXT_PP {R : Type} (fcinfo : FunctionCallInfo R) : text := fcinfo.arg1

/-- Modelled from the spec: the macro `SQLITE_RETURN` of `omni_sqlite.h`; the function's
result is the handle it is given. -/
def SQLITE_RETURN {R : Type} (sqlite : sqlite_Sqlite R) : sqlite_Sqlite R := sqlite

/-! ## The function -/

/-- The function `sqlite_exec` of `omni_sqlite_exec.c`: the outcome (the returned handle, or the error the
request is aborted with) and the world it leaves. -/
def sqlite_exec {S R : Type} (E : Engine S) (fcinfo : FunctionCallInfo R) (w : World S) :
    Except ErrorData (sqlite_Sqlite R) × World S :=
  let msg : Option CStr := none
  let sqlite := SQLITE_GETARG fcinfo
  let query := PG_GETARG_TEXT_PP fcinfo
  let r := sqlite3_exec E w sqlite.db (text_to_cstring query) none none (some msg)
  if r.rc ≠ SQLITE_OK then
    match ereport ElogLevel.ERROR (errmsg "Failed to execute query: %s" r.slot) with
    | Except.error e => (Except.error e, r.world)
    | Except.ok () => (Except.ok (SQLITE_RETURN sqlite), r.world)
  else
    (Except.ok (SQLITE_RETURN sqlite), r.world)

/-! ## Vocabulary for the statements -/

/-- The engine entry points called between world `w` and a later world `w'`. -/
def callsMade {S : Type} (w w' : World S) : List EngineCall :=
  w'.calls.drop w.calls.length

/-- Is the logged call a call of the execute entry point? -/
def EngineCall.isExec : EngineCall → Bool
  | .exec _ _ _ _ _ => true
  | .free _ => false

/-- Is the logged call a call of the deallocation entry point? -/
def EngineCall.isFree : EngineCall → Bool
  | .exec _ _ _ _ _ => false
  | .free _ => true

/-- The engine's answer to the execute call that `sqlite_exec` makes for handle `H` and
command `c` in world `w`. -/
def engineResponse {S R : Type} (E : Engine S) (H : sqlite_Sqlite R) (c : text)
    (w : World S) : ExecResponse S :=
  E.exec (w.sessions H.db) (text_to_cstring c) none none

/-- The diagnostic slot `msg` after the engine call: the local starts out null and holds
whatever the engine stored, if it stored anything. -/
def diagnosticSlot {S : Type} (r : ExecResponse S) : Option CStr :=
  r.pzErrMsg.getD none

/-- The addresses of the buffers the engine hands out through the out-parameter. -/
def handedOut {S : Type} (r : ExecResponse S) : List Nat :=
  match r.pzErrMsg with
  | some (some b) => [b.addr]
  | _ => []

/-- The engine's state transition for command `c`, with no row callback. -/
def engineStep {S : Type} (E : Engine S) (c : text) (s : S) : S :=
  (E.exec s (text_to_cstring c) none none).db

deriving instance DecidableEq for Except

/-! ## A small engine for concrete runs

`scenarioEngine` is a stand-in with a single table `t` whose state is `none` (no table) or
`some rows`. It understands the three commands of the scenario of the specification's
section 8, a query and the empty command, and rejects everything else with status 1 and
a diagnostic buffer at address 4096, leaving the state as it was. -/

/-- A stand-in engine over one table `t`. -/
def scenarioEngine : Engine (Option (List String)) where
  exec s sql _ _ :=
    if sql = "CREATE TABLE t(x INT)" then
      match s with
      | none => ⟨SQLITE_OK, some none, [], some []⟩
      | some rows => ⟨1, some (some ⟨4096, "table t already exists"⟩), [], some rows⟩
    else if sql = "INSERT INTO t VALUES (1)" then
      match s with
      | some rows => ⟨SQLITE_OK, some none, [], some (rows ++ ["1"])⟩
      | none => ⟨1, some (some ⟨4096, "no such table: t"⟩), [], none⟩
    else if sql = "SELECT x FROM t" then
      match s with
      | some rows => ⟨SQLITE_OK, some none, rows.map fun x => [x], some rows⟩
      | none => ⟨1, some (some ⟨4096, "no such table: t"⟩), [], none⟩
    else if sql = "" then ⟨SQLITE_OK, some none, [], s⟩
    else ⟨1, some (some ⟨4096, "no such column: x"⟩), [], s⟩

/-- An engine that refuses every call with status 21 and stores nothing through the
out-parameter. -/
def refusingEngine : Engine Unit where
  exec _ _ _ _ := ⟨21, none, [], ()⟩

/-- An engine that answers `SQLITE_OK` and nevertheless stores a buffer through the
out-parameter. -/
def chattyEngine : Engine Unit where
  exec _ _ _ _ := ⟨SQLITE_OK, some (some ⟨8192, "not an error"⟩), [], ()⟩

/-- A handle on session 7. -/
def handle7 : sqlite_Sqlite Unit := ⟨7, ()⟩

/-- A world in which no session has a table, nothing is outstanding and nothing was called. -/
def freshWorld : World (Option (List String)) := ⟨fun _ => none, [], []⟩

/-- A world in which every session holds table `t` with the given rows. -/
def worldWithRows (rows : List String) : World (Option (List String)) :=
  ⟨fun _ => some rows, [], []⟩

/-- A world for `refusingEngine`. -/
def unitWorld : World Unit := ⟨fun _ => (), [], []⟩

/-! ## Basic facts -/

theorem errmsg_of_buffer (b : CStr) :
    errmsg "Failed to execute query: %s" (some b) = "Failed to execute query: " ++ b.str := by
  apply String.ext
  simp [errmsg, expandFormat]

theorem errmsg_of_null :
    errmsg "Failed to execute query: %s" none = "Failed to execute query: (null)" := by
  decide

/-- The outcome of `sqlite_exec`, read off the engine's answer. -/
theorem sqlite_exec_outcome {S R : Type} (E : Engine S) (H : sqlite_Sqlite R) (c : text)
    (w : World S) :
    (sqlite_exec E ⟨H, c⟩ w).1 =
      if (engineResponse E H c w).status = SQLITE_OK then Except.ok H
      else Except.error ⟨ElogLevel.ERROR,
        errmsg "Failed to execute query: %s" (diagnosticSlot (engineResponse E H c w))⟩ := by
  by_cases h : (E.exec (w.sessions H.db) c.vl_dat none none).status = SQLITE_OK <;>
    simp [sqlite_exec, sqlite3_exec, engineResponse, diagnosticSlot, ereport,
      ElogLevel.aborts, SQLITE_GETARG, SQLITE_RETURN, PG_GETARG_TEXT_PP, text_to_cstring, h]

/-- The world `sqlite_exec` leaves, read off the engine's answer. -/
theorem sqlite_exec_world {S R : Type} (E : Engine S) (H : sqlite_Sqlite R) (c : text)
    (w : World S) :
    (sqlite_exec E ⟨H, c⟩ w).2 =
      { sessions := Function.update w.sessions H.db (engineResponse E H c w).db
        outstanding := w.outstanding ++ handedOut (engineResponse E H c w)
        calls := w.calls ++
          [EngineCall.exec H.db (text_to_cstring c) none none (some none)] } := by
  have hout : ∀ r : ExecResponse S,
      (match some (none : Option CStr), r.pzErrMsg with
        | some _, some (some b) => [b.addr]
        | _, _ => []) = handedOut r := by
    intro r
    rcases r with ⟨st, _ | _ | b, rows, db⟩ <;> rfl
  by_cases h : (E.exec (w.sessions H.db) c.vl_dat none none).status = SQLITE_OK <;>
    simp [sqlite_exec, sqlite3_exec, engineResponse, ereport,
      ElogLevel.aborts, SQLITE_GETARG, PG_GETARG_TEXT_PP, text_to_cstring, h, hout]

/-- Releasing the diagnostic buffer through `sqlite3_free` after the engine call brings the
outstanding buffers back to what they were, provided the engine's buffer is a fresh one. -/
theorem sqlite3_free_after_exec {S R : Type} (E : Engine S) (H : sqlite_Sqlite R) (c : text)
    (w : World S) (b : CStr) (hb : (engineResponse E H c w).pzErrMsg = some (some b))
    (hfresh : b.addr ∉ w.outstanding) :
    (sqlite3_free (sqlite_exec E ⟨H, c⟩ w).2
        (diagnosticSlot (engineResponse E H c w))).outstanding = w.outstanding := by
  rw [sqlite_exec_world]
  simp [sqlite3_free, diagnosticSlot, handedOut, hb, List.erase_append_right _ hfresh]

theorem callsMade_append {S : Type} (w w' : World S) (l : List EngineCall)
    (h : w'.calls = w.calls ++ l) : callsMade w w' = l := by
  simp [callsMade, h]

/-! ## Outcome: returned handle or raised error -/

/-- C1: `sqlite_exec` raises a host error exactly when the engine's execute call answers a
status other than `SQLITE_OK`; on `SQLITE_OK` it returns the handle, and on every other
status, whichever it is, it raises at severity `ERROR` with a message that depends on the
diagnostic slot only. -/
theorem sqlite_exec_raises_iff_engine_fails {S R : Type} (E : Engine S)
    (H : sqlite_Sqlite R) (c : text) (w : World S) :
    ((∃ e, (sqlite_exec E ⟨H, c⟩ w).1 = Except.error e) ↔
        (engineResponse E H c w).status ≠ SQLITE_OK) ∧
    ((engineResponse E H c w).status = SQLITE_OK →
        (sqlite_exec E ⟨H, c⟩ w).1 = Except.ok H) ∧
    ((engineResponse E H c w).status ≠ SQLITE_OK →
        (sqlite_exec E ⟨H, c⟩ w).1 = Except.error ⟨ElogLevel.ERROR,
          errmsg "Failed to execute query: %s" (diagnosticSlot (engineResponse E H c w))⟩) := by
  rw [sqlite_exec_outcome]
  by_cases h : (engineResponse E H c w).status = SQLITE_OK <;> simp [h]

theorem sqlite_exec_raises_iff_engine_fails_witness :
    (sqlite_exec scenarioEngine ⟨handle7, ⟨"CREATE TABLE t(x INT)"⟩⟩ freshWorld).1
        = Except.ok handle7 ∧
    (sqlite_exec scenarioEngine ⟨handle7, ⟨"INSERT INTO t VALUES (x)"⟩⟩ freshWorld).1
        = Except.error ⟨ElogLevel.ERROR, "Failed to execute query: no such column: x"⟩ ∧
    (∃ e, (sqlite_exec refusingEngine ⟨handle7, ⟨"SELECT 1"⟩⟩ unitWorld).1
        = Except.error e) :=
  ⟨(sqlite_exec_raises_iff_engine_fails scenarioEngine handle7
      ⟨"CREATE TABLE t(x INT)"⟩ freshWorld).2.1 (by decide),
   ((sqlite_exec_raises_iff_engine_fails scenarioEngine handle7
      ⟨"INSERT INTO t VALUES (x)"⟩ freshWorld).2.2 (by decide)).trans (by decide),
   (sqlite_exec_raises_iff_engine_fails refusingEngine handle7
      ⟨"SELECT 1"⟩ unitWorld).1.mpr (by decide)⟩

/-- C2: when the engine answers `SQLITE_OK`, `sqlite_exec` returns the handle passed as
argument 0: the returned handle equals the input handle, field by field, its `db`
reference included. -/
theorem sqlite_exec_returns_same_handle {S R : Type} (E : Engine S)
    (H : sqlite_Sqlite R) (c : text) (w : World S)
    (hok : (engineResponse E H c w).status = SQLITE_OK) :
    (sqlite_exec E ⟨H, c⟩ w).1 = Except.ok H ∧
    ∀ H' : sqlite_Sqlite R, (sqlite_exec E ⟨H, c⟩ w).1 = Except.ok H' →
      H' = H ∧ H'.db = H.db ∧ H'.fields = H.fields := by
  rw [sqlite_exec_outcome, if_pos hok]
  refine ⟨rfl, ?_⟩
  intro H' hH'
  have hEq : H' = H := (Except.ok.inj hH').symm
  subst hEq
  exact ⟨rfl, rfl, rfl⟩

theorem sqlite_exec_returns_same_handle_witness :
    (sqlite_exec scenarioEngine ⟨handle7, ⟨"INSERT INTO t VALUES (1)"⟩⟩
        (worldWithRows [])).1 = Except.ok handle7 :=
  (sqlite_exec_returns_same_handle scenarioEngine handle7 ⟨"INSERT INTO t VALUES (1)"⟩
    (worldWithRows []) (by decide)).1

/-- C3: when the engine answers a non-success status and leaves the diagnostic text `d` in
the slot, the error raised has severity `ERROR` and its message is exactly
`Failed to execute query: ` followed by `d`. -/
theorem sqlite_exec_error_message {S R : Type} (E : Engine S)
    (H : sqlite_Sqlite R) (c : text) (w : World S) (d : CStr)
    (hfail : (engineResponse E H c w).status ≠ SQLITE_OK)
    (hd : diagnosticSlot (engineResponse E H c w) = some d) :
    (sqlite_exec E ⟨H, c⟩ w).1 =
      Except.error ⟨ElogLevel.ERROR, "Failed to execute query: " ++ d.str⟩ := by
  rw [sqlite_exec_outcome, if_neg hfail, hd, errmsg_of_buffer]

theorem sqlite_exec_error_message_witness :
    (sqlite_exec scenarioEngine ⟨handle7, ⟨"INSERT INTO t VALUES (1)"⟩⟩ freshWorld).1 =
      Except.error ⟨ElogLevel.ERROR, "Failed to execute query: " ++ "no such table: t"⟩ :=
  sqlite_exec_error_message scenarioEngine handle7 ⟨"INSERT INTO t VALUES (1)"⟩ freshWorld
    ⟨4096, "no such table: t"⟩ (by decide) (by decide)

/-! ## The engine call -/

/-- C4: the one engine call `sqlite_exec` makes is the execute entry point on the session
`H.db` and on the command's own characters, with no row callback, no callback argument
and the address of a null diagnostic slot; for the empty command the outcome is read off
the engine's answer to the empty command like for any other. -/
theorem sqlite_exec_forwards_command {S R : Type} (E : Engine S)
    (H : sqlite_Sqlite R) (c : text) (w : World S) :
    callsMade w (sqlite_exec E ⟨H, c⟩ w).2 =
        [EngineCall.exec H.db c.vl_dat none none (some none)] ∧
    (sqlite_exec E ⟨H, c⟩ w).2.sessions H.db =
        (E.exec (w.sessions H.db) c.vl_dat none none).db ∧
    (sqlite_exec E ⟨H, ⟨""⟩⟩ w).1 =
        if (E.exec (w.sessions H.db) "" none none).status = SQLITE_OK then Except.ok H
        else Except.error ⟨ElogLevel.ERROR, errmsg "Failed to execute query: %s"
          (diagnosticSlot (E.exec (w.sessions H.db) "" none none))⟩ := by
  refine ⟨?_, ?_, ?_⟩
  · apply callsMade_append
    rw [sqlite_exec_world]
    rfl
  · rw [sqlite_exec_world]
    simp [engineResponse, text_to_cstring]
  · rw [sqlite_exec_outcome]
    rfl

/-- C5: one invocation of `sqlite_exec` calls the engine exactly once, whatever the engine
answers: the calls it adds to the log have length 1 and the one call is the execute entry
point. -/
theorem sqlite_exec_calls_engine_once {S R : Type} (E : Engine S)
    (H : sqlite_Sqlite R) (c : text) (w : World S) :
    (callsMade w (sqlite_exec E ⟨H, c⟩ w).2).length = 1 ∧
    (callsMade w (sqlite_exec E ⟨H, c⟩ w).2).countP EngineCall.isExec = 1 := by
  have h : callsMade w (sqlite_exec E ⟨H, c⟩ w).2 =
      [EngineCall.exec H.db (text_to_cstring c) none none (some none)] := by
    apply callsMade_append
    rw [sqlite_exec_world]
  rw [h]
  exact ⟨rfl, rfl⟩

/-! ## Effects on the database and on the engine's buffers -/

/-- C6: after `sqlite_exec`, whether it returns or raises, the session behind the handle
is in the state the engine's execute call answers for the state before and the command;
every other session is as before, and if the engine leaves the state as it was (as for a
rejected statement) then no session has changed. -/
theorem sqlite_exec_database_state {S R : Type} (E : Engine S)
    (H : sqlite_Sqlite R) (c : text) (w : World S) :
    (sqlite_exec E ⟨H, c⟩ w).2.sessions H.db = engineStep E c (w.sessions H.db) ∧
    (∀ p : Nat, p ≠ H.db → (sqlite_exec E ⟨H, c⟩ w).2.sessions p = w.sessions p) ∧
    (engineStep E c (w.sessions H.db) = w.sessions H.db →
      (sqlite_exec E ⟨H, c⟩ w).2.sessions = w.sessions) := by
  rw [sqlite_exec_world]
  refine ⟨?_, ?_, ?_⟩
  · simp [engineResponse, engineStep]
  · intro p hp
    simp [Function.update_noteq hp]
  · intro hsame
    have hdb : (engineResponse E H c w).db = w.sessions H.db := hsame
    simp [hdb]

theorem sqlite_exec_database_state_witness :
    ((sqlite_exec scenarioEngine ⟨handle7, ⟨"INSERT INTO t VALUES (x)"⟩⟩
        (sqlite_exec scenarioEngine ⟨handle7, ⟨"INSERT INTO t VALUES (1)"⟩⟩
          (sqlite_exec scenarioEngine ⟨handle7, ⟨"CREATE TABLE t(x INT)"⟩⟩
            freshWorld).2).2).1
      = Except.error ⟨ElogLevel.ERROR, "Failed to execute query: no such column: x"⟩) ∧
    ((sqlite_exec scenarioEngine ⟨handle7, ⟨"INSERT INTO t VALUES (x)"⟩⟩
        (sqlite_exec scenarioEngine ⟨handle7, ⟨"INSERT INTO t VALUES (1)"⟩⟩
          (sqlite_exec scenarioEngine ⟨handle7, ⟨"CREATE TABLE t(x INT)"⟩⟩
            freshWorld).2).2).2.sessions 7 = some ["1"]) ∧
    ((sqlite_exec scenarioEngine ⟨handle7, ⟨"INSERT INTO t VALUES (x)"⟩⟩
        (sqlite_exec scenarioEngine ⟨handle7, ⟨"INSERT INTO t VALUES (1)"⟩⟩
          (sqlite_exec scenarioEngine ⟨handle7, ⟨"CREATE TABLE t(x INT)"⟩⟩
            freshWorld).2).2).2.sessions 8 = none) :=
  ⟨by decide,
   ((sqlite_exec_database_state scenarioEngine handle7 ⟨"INSERT INTO t VALUES (x)"⟩
      (sqlite_exec scenarioEngine ⟨handle7, ⟨"INSERT INTO t VALUES (1)"⟩⟩
        (sqlite_exec scenarioEngine ⟨handle7, ⟨"CREATE TABLE t(x INT)"⟩⟩
          freshWorld).2).2).1).trans (by decide),
   ((sqlite_exec_database_state scenarioEngine handle7 ⟨"INSERT INTO t VALUES (x)"⟩
      (sqlite_exec scenarioEngine ⟨handle7, ⟨"INSERT INTO t VALUES (1)"⟩⟩
        (sqlite_exec scenarioEngine ⟨handle7, ⟨"CREATE TABLE t(x INT)"⟩⟩
          freshWorld).2).2).2.1 8 (by decide)).trans (by decide)⟩

/-- C7, as stated, fails: on a rejected command the buffer the engine handed out through
the out-parameter is still outstanding after `sqlite_exec`, and no deallocation call was
made. -/
theorem sqlite_exec_failure_leaks_diagnostic :
    (engineResponse scenarioEngine handle7 ⟨"INSERT INTO t VALUES (x)"⟩ freshWorld).status
        ≠ SQLITE_OK ∧
    freshWorld.outstanding = [] ∧
    (sqlite_exec scenarioEngine ⟨handle7, ⟨"INSERT INTO t VALUES (x)"⟩⟩
        freshWorld).2.outstanding = [4096] ∧
    (sqlite_exec scenarioEngine ⟨handle7, ⟨"INSERT INTO t VALUES (x)"⟩⟩
        freshWorld).2.outstanding ≠ freshWorld.outstanding ∧
    (callsMade freshWorld (sqlite_exec scenarioEngine
        ⟨handle7, ⟨"INSERT INTO t VALUES (x)"⟩⟩ freshWorld).2).countP EngineCall.isFree
        = 0 := by
  refine ⟨by decide, by decide, by decide, by decide, by decide⟩

/-- C7, amended: on the failure path `sqlite_exec` makes no deallocation call; the
outstanding engine-owned buffers after the operation are those before it followed by the
buffer the engine handed out through the out-parameter, so they are the same as before
exactly when the engine handed out none. -/
theorem sqlite_exec_failure_outstanding {S R : Type} (E : Engine S)
    (H : sqlite_Sqlite R) (c : text) (w : World S)
    (hfail : (engineResponse E H c w).status ≠ SQLITE_OK) :
    (∃ m, (sqlite_exec E ⟨H, c⟩ w).1 = Except.error ⟨ElogLevel.ERROR, m⟩) ∧
    (callsMade w (sqlite_exec E ⟨H, c⟩ w).2).countP EngineCall.isFree = 0 ∧
    (sqlite_exec E ⟨H, c⟩ w).2.outstanding =
        w.outstanding ++ handedOut (engineResponse E H c w) ∧
    (∀ b : CStr, (engineResponse E H c w).pzErrMsg = some (some b) →
        b.addr ∈ (sqlite_exec E ⟨H, c⟩ w).2.outstanding) ∧
    ((sqlite_exec E ⟨H, c⟩ w).2.outstanding = w.outstanding ↔
        handedOut (engineResponse E H c w) = []) := by
  have hcalls : callsMade w (sqlite_exec E ⟨H, c⟩ w).2 =
      [EngineCall.exec H.db (text_to_cstring c) none none (some none)] := by
    apply callsMade_append
    rw [sqlite_exec_world]
  refine ⟨?_, ?_, ?_, ?_, ?_⟩
  · rw [sqlite_exec_outcome, if_neg hfail]
    exact ⟨_, rfl⟩
  · rw [hcalls]
    rfl
  · rw [sqlite_exec_world]
  · intro b hb
    rw [sqlite_exec_world]
    simp [handedOut, hb]
  · rw [sqlite_exec_world]
    simp

theorem sqlite_exec_failure_outstanding_witness :
    (sqlite_exec scenarioEngine ⟨handle7, ⟨"CREATE TABLE t(x INT)"⟩⟩
        (worldWithRows ["1"])).2.outstanding = [4096] ∧
    (sqlite_exec refusingEngine ⟨handle7, ⟨"SELECT 1"⟩⟩ unitWorld).2.outstanding
        = unitWorld.outstanding :=
  ⟨((sqlite_exec_failure_outstanding scenarioEngine handle7 ⟨"CREATE TABLE t(x INT)"⟩
      (worldWithRows ["1"]) (by decide)).2.2.1).trans (by decide),
   (sqlite_exec_failure_outstanding refusingEngine handle7 ⟨"SELECT 1"⟩
      unitWorld (by decide)).2.2.2.2.mpr (by decide)⟩

/-! ## Repeated invocations, result rows, and the diagnostic slot -/

/-- C8: two successive successful invocations of `sqlite_exec` on the same handle and
command both return the handle, call the engine twice, and leave the session in the state
obtained by applying the engine's transition for the command twice; if that transition is
the identity, both invocations leave every session as it was. -/
theorem sqlite_exec_twice {S R : Type} (E : Engine S)
    (H : sqlite_Sqlite R) (c : text) (w : World S)
    (hok₁ : (engineResponse E H c w).status = SQLITE_OK)
    (hok₂ : (engineResponse E H c (sqlite_exec E ⟨H, c⟩ w).2).status = SQLITE_OK) :
    (sqlite_exec E ⟨H, c⟩ w).1 = Except.ok H ∧
    (sqlite_exec E ⟨H, c⟩ (sqlite_exec E ⟨H, c⟩ w).2).1 = Except.ok H ∧
    (sqlite_exec E ⟨H, c⟩ (sqlite_exec E ⟨H, c⟩ w).2).2.sessions H.db =
        engineStep E c (engineStep E c (w.sessions H.db)) ∧
    (callsMade w (sqlite_exec E ⟨H, c⟩ (sqlite_exec E ⟨H, c⟩ w).2).2).countP
        EngineCall.isExec = 2 ∧
    ((∀ s : S, engineStep E c s = s) →
        (sqlite_exec E ⟨H, c⟩ w).2.sessions = w.sessions ∧
        (sqlite_exec E ⟨H, c⟩ (sqlite_exec E ⟨H, c⟩ w).2).2.sessions = w.sessions) := by
  have hstep : ∀ v : World S,
      (sqlite_exec E ⟨H, c⟩ v).2.sessions =
        Function.update v.sessions H.db (engineStep E c (v.sessions H.db)) := by
    intro v
    rw [sqlite_exec_world]
    rfl
  have hcalls : ∀ v : World S,
      (sqlite_exec E ⟨H, c⟩ v).2.calls =
        v.calls ++ [EngineCall.exec H.db (text_to_cstring c) none none (some none)] := by
    intro v
    rw [sqlite_exec_world]
  refine ⟨?_, ?_, ?_, ?_, ?_⟩
  · rw [sqlite_exec_outcome, if_pos hok₁]
  · rw [sqlite_exec_outcome, if_pos hok₂]
  · simp [hstep]
  · have h2 : callsMade w (sqlite_exec E ⟨H, c⟩ (sqlite_exec E ⟨H, c⟩ w).2).2 =
        [EngineCall.exec H.db (text_to_cstring c) none none (some none),
         EngineCall.exec H.db (text_to_cstring c) none none (some none)] := by
      apply callsMade_append
      rw [hcalls, hcalls, List.append_assoc]
      rfl
    rw [h2]
    rfl
  · intro hid
    have h1 : (sqlite_exec E ⟨H, c⟩ w).2.sessions = w.sessions := by
      rw [hstep, hid, Function.update_eq_self]
    refine ⟨h1, ?_⟩
    rw [hstep, hid, Function.update_eq_self, h1]

theorem sqlite_exec_twice_witness :
    ((sqlite_exec scenarioEngine ⟨handle7, ⟨"INSERT INTO t VALUES (1)"⟩⟩
        (sqlite_exec scenarioEngine ⟨handle7, ⟨"INSERT INTO t VALUES (1)"⟩⟩
          (worldWithRows [])).2).2.sessions 7 = some ["1", "1"]) ∧
    ((sqlite_exec scenarioEngine ⟨handle7, ⟨"SELECT x FROM t"⟩⟩
        (sqlite_exec scenarioEngine ⟨handle7, ⟨"SELECT x FROM t"⟩⟩
          (worldWithRows ["1"])).2).2.sessions = (worldWithRows ["1"]).sessions) :=
  ⟨((sqlite_exec_twice scenarioEngine handle7 ⟨"INSERT INTO t VALUES (1)"⟩
      (worldWithRows []) (by decide) (by decide)).2.2.1).trans (by decide),
   ((sqlite_exec_twice scenarioEngine handle7 ⟨"SELECT x FROM t"⟩
      (worldWithRows ["1"]) (by decide) (by decide)).2.2.2.2
        (by intro s; cases s <;> rfl)).2⟩

/-- C9: the outcome of `sqlite_exec` depends on the handle, the engine's status and the
diagnostic text only: two runs on the same handle whose engine answers agree on the
status and on the text left in the diagnostic slot have the same outcome, whatever the
engines, commands, database states and result rows are. -/
theorem sqlite_exec_outcome_ignores_rows {S₁ S₂ R : Type} (E₁ : Engine S₁) (E₂ : Engine S₂)
    (H : sqlite_Sqlite R) (c₁ c₂ : text) (w₁ : World S₁) (w₂ : World S₂)
    (hstatus : (engineResponse E₁ H c₁ w₁).status = (engineResponse E₂ H c₂ w₂).status)
    (hdiag : (diagnosticSlot (engineResponse E₁ H c₁ w₁)).map CStr.str =
        (diagnosticSlot (engineResponse E₂ H c₂ w₂)).map CStr.str) :
    (sqlite_exec E₁ ⟨H, c₁⟩ w₁).1 = (sqlite_exec E₂ ⟨H, c₂⟩ w₂).1 := by
  rw [sqlite_exec_outcome, sqlite_exec_outcome, hstatus]
  unfold errmsg
  rw [hdiag]

theorem sqlite_exec_outcome_ignores_rows_witness :
    (engineResponse scenarioEngine handle7 ⟨"SELECT x FROM t"⟩ (worldWithRows ["1"])).rows
        ≠ (engineResponse scenarioEngine handle7 ⟨"SELECT x FROM t"⟩
            (worldWithRows ["1", "2"])).rows ∧
    (sqlite_exec scenarioEngine ⟨handle7, ⟨"SELECT x FROM t"⟩⟩ (worldWithRows ["1"])).1
        = (sqlite_exec scenarioEngine ⟨handle7, ⟨"SELECT x FROM t"⟩⟩
            (worldWithRows ["1", "2"])).1 :=
  ⟨by decide,
   sqlite_exec_outcome_ignores_rows scenarioEngine scenarioEngine handle7
     ⟨"SELECT x FROM t"⟩ ⟨"SELECT x FROM t"⟩ (worldWithRows ["1"])
     (worldWithRows ["1", "2"]) (by decide) (by decide)⟩

/-- C10: the engine is handed the address of a diagnostic slot that holds null; if the
engine answers `SQLITE_OK` the handle is returned whatever the engine stored in the slot,
and if it answers a non-success status with the slot still null, the host error is raised
all the same, with a message that starts with `Failed to execute query: `. -/
theorem sqlite_exec_diagnostic_slot {S R : Type} (E : Engine S)
    (H : sqlite_Sqlite R) (c : text) (w : World S) :
    (∃ db sql callback arg, callsMade w (sqlite_exec E ⟨H, c⟩ w).2 =
        [EngineCall.exec db sql callback arg (some none)]) ∧
    ((engineResponse E H c w).status = SQLITE_OK →
        (sqlite_exec E ⟨H, c⟩ w).1 = Except.ok H) ∧
    ((engineResponse E H c w).status ≠ SQLITE_OK →
      diagnosticSlot (engineResponse E H c w) = none →
        ∃ rest : String, (sqlite_exec E ⟨H, c⟩ w).1 =
          Except.error ⟨ElogLevel.ERROR, "Failed to execute query: " ++ rest⟩) := by
  refine ⟨⟨H.db, text_to_cstring c, none, none, ?_⟩, ?_, ?_⟩
  · apply callsMade_append
    rw [sqlite_exec_world]
  · intro hok
    rw [sqlite_exec_outcome, if_pos hok]
  · intro hfail hnull
    refine ⟨"(null)", ?_⟩
    rw [sqlite_exec_outcome, if_neg hfail, hnull, errmsg_of_null]
    rfl

theorem sqlite_exec_diagnostic_slot_witness :
    (sqlite_exec chattyEngine ⟨handle7, ⟨"SELECT 1"⟩⟩ unitWorld).1 = Except.ok handle7 ∧
    (∃ rest : String, (sqlite_exec refusingEngine ⟨handle7, ⟨"SELECT 1"⟩⟩ unitWorld).1 =
        Except.error ⟨ElogLevel.ERROR, "Failed to execute query: " ++ rest⟩) :=
  ⟨(sqlite_exec_diagnostic_slot chattyEngine handle7 ⟨"SELECT 1"⟩ unitWorld).2.1
      (by decide),
   (sqlite_exec_diagnostic_slot refusingEngine handle7 ⟨"SELECT 1"⟩ unitWorld).2.2
      (by decide) (by decide)⟩

end OmniSqlite
